import Mathlib

/-!
# exodos-launcher: `src/launcher/launcher.c`

A shallow embedding of the launcher `main` and the properties of it that the
specification states.

The program is one straight-line function that talks to the operating system
through five library calls (`readlink`, `dirname`, `printf`, `chdir`,
`system`).  The embedding makes everything the program does not decide an
explicit argument (`World`) and threads the state of the process (`Proc`)
through the calls, statement by statement.  Every call records itself in the
state it changes: the library calls with their operands (`trace`) and what the
operating system sees of them (`effects`).

Three C facts are made explicit rather than hidden:

* `char result[PATH_MAX]` is an automatic array without initialiser, so its
  cells hold whatever the stack held before (`World.stack`), and `readlink`
  overwrites only the first `count` of them and appends no terminator;
* `const char *path` is declared without initialiser, so it has no value until
  the guarded assignment runs (`PathVal.unassigned`); a read through it finds
  whatever the stale content of its cell points to, or faults
  (`World.stalePath`), and a fault kills the process where it happens;
* `printf` hands its bytes to the stream `stdout`; the stream passes them on to
  the file descriptor when it sees fit (`World.flushed`) and at the latest when
  `main` returns.

`PATH_MAX` comes from `<linux/limits.h>`, which is not part of the repository,
and is a parameter of the model.
-/

namespace Launcher

/-! ## Bytes and C strings -/

/-- A C `char` sequence, one natural number per byte. -/
abbrev Bytes := List Nat

/-- The string terminator. -/
def NUL : Nat := 0

/-- The path separator, the byte of the character `/`. -/
def SLASH : Nat := 47

/-- The bytes of a string literal (used for ASCII literals only). -/
def bytes (s : String) : Bytes := s.toList.map Char.toNat

/-- The C string that starts at cell 0 of an array: the bytes before the first
terminator.  `none` when the array holds no terminator, in which case a reader
of the string runs past the end of the array. -/
def cstr : Bytes → Option Bytes
  | [] => none
  | b :: rest => if b = NUL then some [] else (cstr rest).map (fun s => b :: s)

/-! ## The library functions -/

/-- `memrchr (s, SLASH, n)`: the index of the last separator among the first
`n` bytes of `s`, if there is one. -/
def memrchr (s : Bytes) : Nat → Option Nat
  | 0 => none
  | n + 1 => if s.getD n NUL = SLASH then some n else memrchr s n

/-- The loop `for (runp = i; runp != path; --runp) if (runp[-1] != SLASH) break;`
of `dirname`: walks down from index `i` over a run of separators and returns
the index where it stops. -/
def skipSlashesBack (s : Bytes) : Nat → Nat
  | 0 => 0
  | i + 1 => if s.getD i NUL = SLASH then skipSlashesBack s i else i + 1

/-- `dirname(3)` of `<libgen.h>` on the contents `s` of a C string (the bytes
before its terminator), following the algorithm of the C library: find the
last separator, step over a trailing run of separators, cut the string where
the directory part ends; `"."` when there is no directory part, `"/"` for the
root and `"//"` for exactly two leading separators. -/
def dirname (s : Bytes) : Bytes :=
  -- last_slash = strrchr (path, SLASH)
  let last0 := memrchr s s.length
  -- if (last_slash != NULL && last_slash != path && last_slash[1] == NUL)
  let last1 :=
    match last0 with
    | some l =>
      if l ≠ 0 ∧ l + 1 = s.length then
        let runp := skipSlashesBack s l
        if runp ≠ 0 then memrchr s runp else some l
      else some l
    | none => none
  match last1 with
  | some l =>
    let runp := skipSlashesBack s l
    if runp = 0 then
      if l = 1 then s.take 2 else s.take 1
    else s.take runp
  | none => bytes "."

/-! ## The world -/

/-- What the program does not decide: the stale content of its stack, the
behaviour of the stream, and the answers of the operating system. -/
structure World where
  /-- The bytes that the cells of `result` hold before the program writes any:
  `stack i` is the stale content of cell `i`. -/
  stack : Nat → Nat
  /-- The C string found at the address that the cell of `path` holds before
  the program assigns to it; `none` when that address cannot be read, so that a
  read through the pointer faults. -/
  stalePath : Option Bytes
  /-- The C string that `path` points to after `dirname` has run past the end of
  an array without terminator; `none` when the memory behind the array ends
  before a terminator, so that `dirname` faults. -/
  overrunPath : Option Bytes
  /-- How many of the bytes waiting in the stream `stdout` the stream passes on
  to the file descriptor as soon as it has them: none of a string shorter than
  the buffer of a buffered stream, all of them on an unbuffered stream.  The
  rest waits until the process exits. -/
  flushed : Bytes → Nat
  /-- The path of the running executable, the target of the link
  `/proc/self/exe`; `none` when the link cannot be read. -/
  exe : Option Bytes
  /-- The working directory in which the launcher was started. -/
  cwd : Bytes
  /-- Whether `chdir` to the given path succeeds. -/
  chdirOk : Bytes → Bool
  /-- The value `system` returns for the command when it is run in the given
  working directory. -/
  systemRet : Bytes → Int

/-! ## Values, calls and effects -/

/-- The value of the local `const char *path`. -/
inductive PathVal where
  /-- Declared, never assigned. -/
  | unassigned
  /-- Assigned from `dirname` on an array without terminator: the string read
  runs past the end of `result`. -/
  | overrun
  /-- Points to a C string with these contents. -/
  | str (s : Bytes)
  deriving DecidableEq, Repr

/-- One library call of the launcher, with its operands. -/
inductive Event where
  /-- `readlink (link, result, bufsiz)` returned `ret`. -/
  | readlink (link : String) (bufsiz : Nat) (ret : Int)
  /-- `dirname (result)`, with the C string found in `result`
  (`none`: no terminator inside the array). -/
  | dirname (arg : Option Bytes)
  /-- `printf (fmt, path)`. -/
  | printf (fmt : String) (arg : PathVal)
  /-- `chdir (path)`. -/
  | chdir (arg : PathVal)
  /-- `system (cmd)`. -/
  | system (cmd : String)
  /-- `return code` from `main`. -/
  | exit (code : Int)
  deriving DecidableEq, Repr

/-- What the operating system sees of the process. -/
inductive Effect where
  /-- The link was read into an array of `bufsiz` cells; `ret` was returned. -/
  | readlink (link : String) (bufsiz : Nat) (ret : Int)
  /-- These bytes were written to the file descriptor of standard output. -/
  | write (data : Bytes)
  /-- A change of the working directory to `dir` was asked for (`none`: through
  an address that cannot be read); `ret` was returned. -/
  | chdir (dir : Option Bytes) (ret : Int)
  /-- The command was run as a child in the working directory `cwd` and
  `status` was returned for it. -/
  | spawn (cmd : String) (cwd : Bytes) (status : Int)
  /-- The process exited with this status. -/
  | exit (code : Int)
  /-- The process was killed by this signal. -/
  | killed (signal : Nat)
  deriving DecidableEq, Repr

/-- The signal that kills a process on a read through a bad address. -/
def SIGSEGV : Nat := 11

/-- The state of the process between two statements of `main`. -/
structure Proc where
  /-- The library calls made so far, oldest first. -/
  trace : List Event
  /-- What the operating system has seen so far, oldest first. -/
  effects : List Effect
  /-- All bytes handed to the stream `stdout` so far. -/
  handed : Bytes
  /-- The bytes that wait in the buffer of the stream. -/
  buffer : Bytes
  /-- The working directory. -/
  cwd : Bytes
  /-- The bytes that had been handed to the stream `stdout` when the child was
  spawned (`none`: no child was spawned). -/
  stdout : Option Bytes
  /-- The working directory in which the child was spawned. -/
  spawnCwd : Option Bytes
  /-- The value `system` returned; `main` discards it. -/
  childStatus : Option Int
  /-- The signal that killed the process, once one has. -/
  signal : Option Nat
  deriving DecidableEq, Repr

/-- How a run ends. -/
inductive Outcome where
  /-- By `return code` from `main`. -/
  | exited (code : Int)
  /-- By a signal. -/
  | killed (signal : Nat)
  deriving DecidableEq, Repr

/-- Everything observable of one execution of `main`: the last state of the
process and the way it ended. -/
structure Run extends Proc where
  /-- The way the run ended. -/
  outcome : Outcome
  deriving DecidableEq, Repr

/-- The exit status of the launcher as the shell that started it reports it:
the value returned from `main`, or 128 plus the signal that killed it. -/
def Run.exit (r : Run) : Int :=
  match r.outcome with
  | .exited code => code
  | .killed signal => 128 + signal

/-! ## The library calls -/

/-- The process as it enters `main`. -/
def Proc.start (w : World) : Proc where
  trace := []
  effects := []
  handed := []
  buffer := []
  cwd := w.cwd
  stdout := none
  spawnCwd := none
  childStatus := none
  signal := none

/-- The process is killed by `SIGSEGV`; what waits in the stream is lost. -/
def Proc.kill (st : Proc) : Proc :=
  { st with effects := st.effects ++ [Effect.killed SIGSEGV], signal := some SIGSEGV }

/-- The string a read through `path` finds, `none` when the read faults. -/
def deref (w : World) : PathVal → Option Bytes
  | .str s => some s
  | .unassigned => w.stalePath
  | .overrun => w.overrunPath

/-- What `readlink ("/proc/self/exe", result, PATH_MAX)` returns and leaves in
the array.  The kernel builds the path with its terminator in a buffer of
`PATH_MAX` bytes: a path that does not fit there, and any path when `PATH_MAX`
is 0, makes the call fail.  On failure the call returns `-1` and leaves the
array as it was; on success it copies the path into the first cells, appends
nothing, leaves the other cells as they were, and returns the number of bytes
copied. -/
def readlink (PATH_MAX : Nat) (w : World) : Int × Bytes :=
  match w.exe with
  | none => (-1, (List.range PATH_MAX).map w.stack)
  | some target =>
    if target.length < PATH_MAX then
      (target.length,
        target ++ (List.range' target.length (PATH_MAX - target.length)).map w.stack)
    else (-1, (List.range PATH_MAX).map w.stack)

/-- The call of `readlink` as a step of the process. -/
def readlinkCall (PATH_MAX : Nat) (w : World) (st : Proc) : Proc :=
  if st.signal.isSome then st else
  { st with
    trace := st.trace ++ [Event.readlink "/proc/self/exe" PATH_MAX (readlink PATH_MAX w).1]
    effects := st.effects ++
      [Effect.readlink "/proc/self/exe" PATH_MAX (readlink PATH_MAX w).1] }

/-- The value `dirname (result)` returns: the directory part of the C string
that starts at cell 0 of the array. -/
def dirnameBuf (result : Bytes) : PathVal :=
  match cstr result with
  | some s => .str (dirname s)
  | none => .overrun

/-- The call of `dirname` as a step of the process: it acts on the array only,
and faults when it runs past the end of the array into memory it cannot
read. -/
def dirnameCall (w : World) (result : Bytes) (st : Proc) : Proc :=
  if st.signal.isSome then st else
  let st := { st with trace := st.trace ++ [Event.dirname (cstr result)] }
  match deref w (dirnameBuf result) with
  | some _ => st
  | none => st.kill

/-- The writes that pass the given bytes on to the file descriptor: none for
no bytes. -/
def Effect.writes (data : Bytes) : List Effect :=
  if data = [] then [] else [Effect.write data]

/-- The call `printf ("%s", path)` as a step of the process: the string at
`path` is handed to the stream, which passes on what it sees fit and keeps the
rest; a read through a bad address kills the process. -/
def printf (w : World) (path : PathVal) (st : Proc) : Proc :=
  if st.signal.isSome then st else
  let st := { st with trace := st.trace ++ [Event.printf "%s" path] }
  match deref w path with
  | none => st.kill
  | some s =>
    let waiting := st.buffer ++ s
    { st with
      handed := st.handed ++ s
      buffer := waiting.drop (w.flushed waiting)
      effects := st.effects ++ Effect.writes (waiting.take (w.flushed waiting)) }

/-- The directory that a successful `chdir (d)` makes current: `d` itself when
absolute, `d` below the current directory otherwise. -/
def chdirTarget (cwd d : Bytes) : Bytes :=
  if d.head? = some SLASH then d else cwd ++ [SLASH] ++ d

/-- The working directory after `chdir (d)` was attempted from `cwd`. -/
def cwdAfter (w : World) (cwd d : Bytes) : Bytes :=
  if w.chdirOk d then chdirTarget cwd d else cwd

/-- The value `chdir (d)` returns. -/
def chdirRet (w : World) (d : Bytes) : Int :=
  if w.chdirOk d then 0 else -1

/-- The call `chdir (path)` as a step of the process; the value returned is
discarded.  The kernel refuses an address it cannot read. -/
def chdir (w : World) (path : PathVal) (st : Proc) : Proc :=
  if st.signal.isSome then st else
  let st := { st with trace := st.trace ++ [Event.chdir path] }
  match deref w path with
  | none => { st with effects := st.effects ++ [Effect.chdir none (-1)] }
  | some d =>
    { st with
      cwd := cwdAfter w st.cwd d
      effects := st.effects ++ [Effect.chdir (some d) (chdirRet w d)] }

/-- The command line the launcher hands to `system`. -/
def command : String := "./exogui --no-sandbox"

/-- The call `system (cmd)` as a step of the process: the command runs as a
child in the current working directory, with the stream of the launcher left
as it is; the value returned is discarded. -/
def system (w : World) (cmd : String) (st : Proc) : Proc :=
  if st.signal.isSome then st else
  { st with
    trace := st.trace ++ [Event.system cmd]
    effects := st.effects ++ [Effect.spawn cmd st.cwd (w.systemRet st.cwd)]
    stdout := some st.handed
    spawnCwd := some st.cwd
    childStatus := some (w.systemRet st.cwd) }

/-- The statement `return code;` of `main`, which ends the run: the stream
passes on what still waits in it and the process exits with `code`.  A process
that was killed before has ended there. -/
def ret (code : Int) (st : Proc) : Run :=
  match st.signal with
  | some s => { st with outcome := Outcome.killed s }
  | none =>
    { st with
      trace := st.trace ++ [Event.exit code]
      effects := st.effects ++ Effect.writes st.buffer ++ [Effect.exit code]
      buffer := []
      outcome := Outcome.exited code }

/-! ## The program -/

/-- The launcher, `main` of `launcher.c`, statement by statement. -/
def main (PATH_MAX : Nat) (argc : Int) (argv : List Bytes) (w : World) : Run :=
  let st := Proc.start w
  -- char result[PATH_MAX];
  -- ssize_t count = readlink("/proc/self/exe", result, PATH_MAX);
  let count := (readlink PATH_MAX w).1
  let result := (readlink PATH_MAX w).2
  let st := readlinkCall PATH_MAX w st
  -- const char *path;
  let path0 := PathVal.unassigned
  -- if (count != -1) { path = dirname(result); }
  let path := if count ≠ -1 then dirnameBuf result else path0
  let st := if count ≠ -1 then dirnameCall w result st else st
  -- printf("%s", path);
  let st := printf w path st
  -- chdir(path);
  let st := chdir w path st
  -- system("./exogui --no-sandbox");
  let st := system w command st
  -- return 0;
  ret 0 st

/-! ## The words of the specification -/

/-- The parent directory of a path as the specification words it, "strip the
final path segment": the bytes after the last separator are the final segment;
they go, and so do the separators in front of them; the root stays when nothing
else is left. -/
def parentDir (p : Bytes) : Bytes :=
  let withoutSegment := (p.reverse.dropWhile (fun b => b ≠ SLASH)).reverse
  let withoutSeparator := (withoutSegment.reverse.dropWhile (fun b => b = SLASH)).reverse
  if withoutSeparator = [] then [SLASH] else withoutSeparator

/-! ## Concrete worlds -/

/-- The scenario of the specification: the launcher is `/tmp/app/launcher`,
started from `/`, the stack cells are all zero, the stream buffers, every
directory change and the child succeed. -/
def cleanWorld : World where
  stack := fun _ => 0
  stalePath := none
  overrunPath := none
  flushed := fun _ => 0
  exe := some (bytes "/tmp/app/launcher")
  cwd := bytes "/"
  chdirOk := fun _ => true
  systemRet := fun _ => 0

/-- As `cleanWorld`, with the lookup of `/proc/self/exe` failing, and with a
stale pointer to the string `/usr/lib` in the cell of `path`. -/
def failWorld : World where
  stack := fun _ => 0
  stalePath := some (bytes "/usr/lib")
  overrunPath := none
  flushed := fun _ => 0
  exe := none
  cwd := bytes "/"
  chdirOk := fun _ => true
  systemRet := fun _ => 0

/-- As `failWorld`, but the stale content of the cell of `path` is no address
that can be read. -/
def deadWorld : World where
  stack := fun _ => 0
  stalePath := none
  overrunPath := none
  flushed := fun _ => 0
  exe := none
  cwd := bytes "/"
  chdirOk := fun _ => true
  systemRet := fun _ => 0

/-- The launcher is `/a/b`; the cells 4, 5, 6 of `result` hold the stale bytes
`c/d` and every other cell holds zero; the directory `/a/bc` exists. -/
def staleWorld : World where
  stack := fun i => (bytes "c/d").getD (i - 4) 0
  stalePath := none
  overrunPath := none
  flushed := fun _ => 0
  exe := some (bytes "/a/b")
  cwd := bytes "/home"
  chdirOk := fun _ => true
  systemRet := fun _ => 0

/-- As `cleanWorld`, but no directory can be made current. -/
def lockedWorld : World where
  stack := fun _ => 0
  stalePath := none
  overrunPath := none
  flushed := fun _ => 0
  exe := some (bytes "/tmp/app/launcher")
  cwd := bytes "/"
  chdirOk := fun _ => false
  systemRet := fun _ => 0

/-- As `cleanWorld`, but there is no `exogui` in the directory: the shell that
`system` starts ends with status 127, which `system` returns as `127 * 256`. -/
def childlessWorld : World where
  stack := fun _ => 0
  stalePath := none
  overrunPath := none
  flushed := fun _ => 0
  exe := some (bytes "/tmp/app/launcher")
  cwd := bytes "/"
  chdirOk := fun _ => true
  systemRet := fun _ => 32512

/-- The argument vector of a plain start of the launcher. -/
def plainArgv : List Bytes := [bytes "./launcher"]

/-! ## The shapes of a run -/

/-- The run that makes every call: `count` is what `readlink` returned,
`derive` the call of `dirname` when there was one, `path` the operand of
`printf` and `chdir`, and `d` the string found there. -/
def completed (PATH_MAX : Nat) (w : World) (count : Int) (derive : List Event)
    (path : PathVal) (d : Bytes) : Run where
  trace := [Event.readlink "/proc/self/exe" PATH_MAX count] ++ derive ++
    [Event.printf "%s" path, Event.chdir path, Event.system command, Event.exit 0]
  effects := [Effect.readlink "/proc/self/exe" PATH_MAX count] ++
    Effect.writes (d.take (w.flushed d)) ++
    [Effect.chdir (some d) (chdirRet w d),
      Effect.spawn command (cwdAfter w w.cwd d) (w.systemRet (cwdAfter w w.cwd d))] ++
    Effect.writes (d.drop (w.flushed d)) ++ [Effect.exit 0]
  handed := d
  buffer := []
  cwd := cwdAfter w w.cwd d
  stdout := some d
  spawnCwd := some (cwdAfter w w.cwd d)
  childStatus := some (w.systemRet (cwdAfter w w.cwd d))
  signal := none
  outcome := Outcome.exited 0

/-- The run that is killed in the last of the calls `calls`, which follow the
call of `readlink`. -/
def killedIn (PATH_MAX : Nat) (w : World) (count : Int) (calls : List Event) : Run where
  trace := [Event.readlink "/proc/self/exe" PATH_MAX count] ++ calls
  effects := [Effect.readlink "/proc/self/exe" PATH_MAX count, Effect.killed SIGSEGV]
  handed := []
  buffer := []
  cwd := w.cwd
  stdout := none
  spawnCwd := none
  childStatus := none
  signal := some SIGSEGV
  outcome := Outcome.killed SIGSEGV

/-! ## Lemmas on the array and the C string in it -/

/-- A string without terminator inside, followed by a terminator, is read back
as itself. -/
theorem cstr_append_nul (p rest : Bytes) (h : NUL ∉ p) :
    cstr (p ++ NUL :: rest) = some p := by
  induction p with
  | nil => simp [cstr]
  | cons b p ih =>
    have hb : b ≠ NUL := fun e => h (by simp [e])
    have hp : NUL ∉ p := fun e => h (by simp [e])
    simp [cstr, hb, ih hp]

/-- An array without any terminator holds no C string. -/
theorem cstr_eq_none (buf : Bytes) (h : NUL ∉ buf) : cstr buf = none := by
  induction buf with
  | nil => rfl
  | cons b p ih =>
    have hb : b ≠ NUL := fun e => h (by simp [e])
    have hp : NUL ∉ p := fun e => h (by simp [e])
    simp [cstr, hb, ih hp]

/-- The return value of a successful `readlink` is the length of the path and
never `-1`. -/
theorem readlink_ok_count (PATH_MAX : Nat) (w : World) (p : Bytes) (h : w.exe = some p)
    (hlen : p.length < PATH_MAX) :
    (readlink PATH_MAX w).1 = (p.length : Int) ∧ (readlink PATH_MAX w).1 ≠ -1 := by
  simp only [readlink, h, hlen, if_true]
  exact ⟨trivial, by omega⟩

/-- A `readlink` that does not return `-1` has copied a path that leaves at
least one cell of the array free: the index `count` lies inside the array. -/
theorem readlink_count_lt (PATH_MAX : Nat) (w : World) (h : (readlink PATH_MAX w).1 ≠ -1) :
    ∃ p, w.exe = some p ∧ p.length < PATH_MAX ∧ (readlink PATH_MAX w).1 = (p.length : Int) := by
  unfold readlink at h ⊢
  cases he : w.exe with
  | none => simp [he] at h
  | some p =>
    by_cases hl : p.length < PATH_MAX
    · exact ⟨p, rfl, hl, by simp [hl]⟩
    · simp [he, hl] at h

/-- The array after a successful `readlink`: the path, then the stale cell at
index `count`, then the other stale cells.  No statement of the program writes
the cell at index `count`. -/
theorem readlink_ok_buffer (PATH_MAX : Nat) (w : World) (p : Bytes) (h : w.exe = some p)
    (hlen : p.length < PATH_MAX) :
    (readlink PATH_MAX w).2 =
      p ++ w.stack p.length ::
        (List.range' (p.length + 1) (PATH_MAX - p.length - 1)).map w.stack := by
  obtain ⟨k, hk⟩ : ∃ k, PATH_MAX - p.length = k + 1 := ⟨PATH_MAX - p.length - 1, by omega⟩
  have hk2 : PATH_MAX - p.length - 1 = k := by omega
  rw [hk2]
  simp only [readlink, h, hlen, if_true, hk, List.range'_succ, List.map_cons]

/-! ## Lemmas on the run -/

/-- The run when `readlink` succeeds and the array holds a C string `s`: every
call is made, on the directory part of `s`. -/
theorem main_of_cstr (PATH_MAX : Nat) (argc : Int) (argv : List Bytes) (w : World) (s : Bytes)
    (hok : (readlink PATH_MAX w).1 ≠ -1) (hs : cstr (readlink PATH_MAX w).2 = some s) :
    main PATH_MAX argc argv w =
      completed PATH_MAX w (readlink PATH_MAX w).1 [Event.dirname (some s)]
        (.str (dirname s)) (dirname s) := by
  simp [main, completed, readlinkCall, dirnameCall, printf, chdir, system, ret, Proc.start,
    deref, dirnameBuf, hok, hs]

/-- The run when `readlink` succeeds and the array holds no terminator: it is
killed in `dirname`, or goes on with whatever string `path` happens to point
to. -/
theorem main_of_overrun (PATH_MAX : Nat) (argc : Int) (argv : List Bytes) (w : World)
    (hok : (readlink PATH_MAX w).1 ≠ -1) (hs : cstr (readlink PATH_MAX w).2 = none) :
    main PATH_MAX argc argv w =
      match w.overrunPath with
      | some d => completed PATH_MAX w (readlink PATH_MAX w).1 [Event.dirname none] .overrun d
      | none => killedIn PATH_MAX w (readlink PATH_MAX w).1 [Event.dirname none] := by
  cases ho : w.overrunPath <;>
    simp [main, completed, killedIn, readlinkCall, dirnameCall, printf, chdir, system, ret,
      Proc.start, Proc.kill, deref, dirnameBuf, hok, hs, ho]

/-- The run when `readlink` fails: it is killed in `printf`, or goes on with
whatever string the stale content of `path` happens to point to. -/
theorem main_of_failure (PATH_MAX : Nat) (argc : Int) (argv : List Bytes) (w : World)
    (hfail : (readlink PATH_MAX w).1 = -1) :
    main PATH_MAX argc argv w =
      match w.stalePath with
      | some d => completed PATH_MAX w (-1) [] .unassigned d
      | none => killedIn PATH_MAX w (-1) [Event.printf "%s" .unassigned] := by
  cases ho : w.stalePath <;>
    simp [main, completed, killedIn, readlinkCall, dirnameCall, printf, chdir, system, ret,
      Proc.start, Proc.kill, deref, hfail, ho]

/-- When the stale cell at index `count` happens to hold zero, the launcher
prints the directory part of the link target and makes it the operand of
`chdir`. -/
theorem main_of_terminated (PATH_MAX : Nat) (argc : Int) (argv : List Bytes) (w : World)
    (p : Bytes) (h : w.exe = some p) (hlen : p.length < PATH_MAX) (hnul : NUL ∉ p)
    (hstale : w.stack p.length = NUL) :
    main PATH_MAX argc argv w =
      completed PATH_MAX w p.length [Event.dirname (some p)] (.str (dirname p)) (dirname p) := by
  have hc := readlink_ok_count PATH_MAX w p h hlen
  have hb := readlink_ok_buffer PATH_MAX w p h hlen
  rw [hstale] at hb
  have hs : cstr (readlink PATH_MAX w).2 = some p := by
    rw [hb]
    exact cstr_append_nul _ _ hnul
  rw [main_of_cstr PATH_MAX argc argv w p hc.2 hs, hc.1]

/-- When `readlink` succeeds, `path` is assigned before it is read. -/
theorem path_assigned_of_readlink_ok (PATH_MAX : Nat) (argc : Int) (argv : List Bytes)
    (w : World) (hok : (readlink PATH_MAX w).1 ≠ -1) :
    Event.printf "%s" .unassigned ∉ (main PATH_MAX argc argv w).trace ∧
      Event.chdir .unassigned ∉ (main PATH_MAX argc argv w).trace := by
  cases hs : cstr (readlink PATH_MAX w).2 with
  | some s =>
    rw [main_of_cstr PATH_MAX argc argv w s hok hs]
    simp [completed]
  | none =>
    rw [main_of_overrun PATH_MAX argc argv w hok hs]
    cases w.overrunPath <;> simp [completed, killedIn]

/-! ## Lemmas on `dirname` and the parent directory -/

/-- Dropping a run of matching elements stops at the first element that does
not match. -/
theorem dropWhile_run {α : Type} (q : α → Bool) (xs : List α) (y : α) (ys : List α)
    (hxs : ∀ x ∈ xs, q x = true) (hy : q y = false) :
    (xs ++ y :: ys).dropWhile q = y :: ys := by
  induction xs with
  | nil => simp [List.dropWhile, hy]
  | cons x xs ih =>
    have hx : q x = true := hxs x (by simp)
    simp only [List.cons_append, List.dropWhile_cons, hx, if_true]
    exact ih (fun z hz => hxs z (by simp [hz]))

/-- The element right behind a first part of a list. -/
theorem getD_append_cons (d : Bytes) (c : Nat) (rest : Bytes) (x : Nat) :
    (d ++ c :: rest).getD d.length x = c := by
  induction d with
  | nil => rfl
  | cons a d ih => simpa using ih

/-- The elements further behind a first part of a list. -/
theorem getD_append_cons_add (d : Bytes) (c : Nat) (rest : Bytes) (x k : Nat) :
    (d ++ c :: rest).getD (d.length + 1 + k) x = rest.getD k x := by
  induction d with
  | nil =>
    have : ([] : Bytes).length + 1 + k = k + 1 := by simp; omega
    rw [this]
    rfl
  | cons a d ih =>
    have : (a :: d).length + 1 + k = (d.length + 1 + k) + 1 := by simp; omega
    rw [this]
    simpa using ih

/-- Searching backwards from inside the final segment finds the separator in
front of it. -/
theorem memrchr_final_segment (d name : Bytes) (hns : SLASH ∉ name) (k : Nat)
    (hk : k ≤ name.length) :
    memrchr (d ++ SLASH :: name) (d.length + 1 + k) = some d.length := by
  induction k with
  | zero =>
    rw [Nat.add_zero, memrchr, getD_append_cons, if_pos rfl]
  | succ k ih =>
    have hk2 : k < name.length := by omega
    have hget : (d ++ SLASH :: name).getD (d.length + 1 + k) NUL = name[k] := by
      rw [getD_append_cons_add, List.getD_eq_getElem _ _ hk2]
    have hne : name[k] ≠ SLASH := fun e => hns (e ▸ List.getElem_mem _)
    have : d.length + 1 + (k + 1) = (d.length + 1 + k) + 1 := by omega
    rw [this, memrchr, hget, if_neg hne]
    exact ih (by omega)

/-- The backward walk over separators does not move when the byte in front is
no separator. -/
theorem skipSlashesBack_clean (d rest : Bytes) (hd : d.getLast? ≠ some SLASH) :
    skipSlashesBack (d ++ rest) d.length = d.length := by
  rcases List.eq_nil_or_concat d with rfl | ⟨d0, c, h⟩
  · rfl
  · rw [List.concat_eq_append] at h
    subst h
    have hc : c ≠ SLASH := by
      intro e
      apply hd
      simp [e]
    have hget : (d0 ++ [c] ++ rest).getD d0.length NUL = c := by
      rw [List.append_assoc]
      exact getD_append_cons d0 c _ NUL
    rw [List.length_append, List.length_singleton, skipSlashesBack, hget, if_neg hc]

/-- The `dirname` of a path made of a directory part `d` that does not end in a
separator, a separator, and a final segment `name`: the directory part, or the
root when the directory part is empty. -/
theorem dirname_clean (d name : Bytes) (hname : name ≠ []) (hns : SLASH ∉ name)
    (hd : d.getLast? ≠ some SLASH) :
    dirname (d ++ SLASH :: name) = if d = [] then [SLASH] else d := by
  have hlen : (d ++ SLASH :: name).length = d.length + 1 + name.length := by
    simp; omega
  have hpos : 0 < name.length := List.length_pos.mpr hname
  have h0 : memrchr (d ++ SLASH :: name) (d ++ SLASH :: name).length = some d.length := by
    rw [hlen]
    exact memrchr_final_segment d name hns name.length le_rfl
  have hskip := skipSlashesBack_clean d (SLASH :: name) hd
  have hcond : ¬ (d.length ≠ 0 ∧ d.length + 1 = (d ++ SLASH :: name).length) := by
    rw [hlen]; omega
  simp only [dirname, h0, hcond, if_false, hskip]
  by_cases hd0 : d = []
  · subst hd0
    simp
  · have : d.length ≠ 0 := fun e => hd0 (List.length_eq_zero.mp e)
    simp [this, hd0]

/-- The parent directory, in the words of the specification, of a path of the
same shape. -/
theorem parentDir_clean (d name : Bytes) (hns : SLASH ∉ name)
    (hd : d.getLast? ≠ some SLASH) :
    parentDir (d ++ SLASH :: name) = if d = [] then [SLASH] else d := by
  have hseg : ((d ++ SLASH :: name).reverse.dropWhile (fun b => b ≠ SLASH)) =
      SLASH :: d.reverse := by
    have : (d ++ SLASH :: name).reverse = name.reverse ++ SLASH :: d.reverse := by simp
    rw [this]
    apply dropWhile_run
    · intro x hx
      have : x ≠ SLASH := fun e => hns (e ▸ List.mem_reverse.mp hx)
      simp [this]
    · simp
  have hsep : ((SLASH :: d.reverse).dropWhile (fun b => b = SLASH)) = d.reverse := by
    rcases List.eq_nil_or_concat d with rfl | ⟨d0, c, rfl⟩
    · simp
    · have hc : c ≠ SLASH := by
        intro e
        apply hd
        simp [e]
      simp [List.dropWhile, hc]
  simp only [parentDir, hseg, hsep, List.reverse_reverse, List.reverse_eq_nil_iff]

/-- On the paths that `readlink` returns for an executable (a directory part
that does not end in a separator, a separator, a final segment), the `dirname`
of the C library gives the parent directory in the words of the
specification. -/
theorem dirname_eq_parentDir (d name : Bytes) (hname : name ≠ []) (hns : SLASH ∉ name)
    (hd : d.getLast? ≠ some SLASH) :
    dirname (d ++ SLASH :: name) = parentDir (d ++ SLASH :: name) := by
  rw [dirname_clean d name hname hns hd, parentDir_clean d name hns hd]

/-- What the launcher does when the stale cell at index `count` happens to hold
zero and the directory exists: for an absolute path of an executable it hands
the parent directory to the stream and spawns the child from there. -/
theorem launch_of_terminated (PATH_MAX : Nat) (argc : Int) (argv : List Bytes) (w : World)
    (d name : Bytes) (h : w.exe = some (d ++ SLASH :: name))
    (hlen : (d ++ SLASH :: name).length < PATH_MAX) (hnul : NUL ∉ d ++ SLASH :: name)
    (habs : (d ++ SLASH :: name).head? = some SLASH)
    (hname : name ≠ []) (hns : SLASH ∉ name) (hd : d.getLast? ≠ some SLASH)
    (hstale : w.stack (d ++ SLASH :: name).length = NUL)
    (hok : w.chdirOk (parentDir (d ++ SLASH :: name)) = true) :
    (main PATH_MAX argc argv w).stdout = some (parentDir (d ++ SLASH :: name)) ∧
      (main PATH_MAX argc argv w).spawnCwd = some (parentDir (d ++ SLASH :: name)) := by
  have hdir := dirname_eq_parentDir d name hname hns hd
  have hhead : (parentDir (d ++ SLASH :: name)).head? = some SLASH := by
    rw [parentDir_clean d name hns hd]
    by_cases hd0 : d = []
    · simp [hd0]
    · rw [if_neg hd0]
      cases d with
      | nil => exact absurd rfl hd0
      | cons a d => simpa using habs
  rw [main_of_terminated PATH_MAX argc argv w _ h hlen hnul hstale, hdir]
  simp only [completed, cwdAfter, chdirTarget, hok, hhead, if_true, and_self]

/-- Every run either makes all its calls or is killed in one of them. -/
theorem main_shape (PATH_MAX : Nat) (argc : Int) (argv : List Bytes) (w : World) :
    (∃ count derive path d,
        main PATH_MAX argc argv w = completed PATH_MAX w count derive path d) ∨
      (∃ count calls, main PATH_MAX argc argv w = killedIn PATH_MAX w count calls) := by
  by_cases hc : (readlink PATH_MAX w).1 = -1
  · rw [main_of_failure PATH_MAX argc argv w hc]
    cases w.stalePath with
    | none => exact Or.inr ⟨_, _, rfl⟩
    | some d => exact Or.inl ⟨_, _, _, _, rfl⟩
  · cases hs : cstr (readlink PATH_MAX w).2 with
    | some s =>
      rw [main_of_cstr PATH_MAX argc argv w s hc hs]
      exact Or.inl ⟨_, _, _, _, rfl⟩
    | none =>
      rw [main_of_overrun PATH_MAX argc argv w hc hs]
      cases w.overrunPath with
      | none => exact Or.inr ⟨_, _, rfl⟩
      | some d => exact Or.inl ⟨_, _, _, _, rfl⟩

/-! ## The claims -/

/-- C1 fails in the code: in the run of `failWorld` the lookup of the own path
fails (`readlink` returns `-1`), and the launcher neither exits with a status
other than 0 nor leaves the spawn out: it reads `path` unassigned, finds the
stale string `/usr/lib` there, and runs the fixed command from that
directory. -/
theorem c1_failed_lookup_still_spawns :
    failWorld.exe = none ∧
      ¬ ((main 4096 1 plainArgv failWorld).exit ≠ 0 ∧
          Event.system "./exogui --no-sandbox" ∉ (main 4096 1 plainArgv failWorld).trace) ∧
      (main 4096 1 plainArgv failWorld).effects =
        [Effect.readlink "/proc/self/exe" 4096 (-1),
          Effect.chdir (some (bytes "/usr/lib")) 0,
          Effect.spawn "./exogui --no-sandbox" (bytes "/usr/lib") 0,
          Effect.write (bytes "/usr/lib"),
          Effect.exit 0] := by
  decide

/-- C2 fails in the code: in the run of `failWorld`, where `readlink` returns
`-1`, the assignment to `path` is skipped, and `printf` and `chdir` both read
`path` while it is still unassigned. -/
theorem c2_path_read_unassigned :
    (main 4096 1 plainArgv failWorld).trace =
      [Event.readlink "/proc/self/exe" 4096 (-1),
        Event.printf "%s" PathVal.unassigned,
        Event.chdir PathVal.unassigned,
        Event.system "./exogui --no-sandbox",
        Event.exit 0] := by
  decide

/-- C3 fails in the code: in the run of `staleWorld` the launcher is `/a/b`,
whose parent directory is `/a`, `readlink` succeeds with 4 bytes, and the bytes
handed to standard output are `/a/bc`: `dirname` read on into the stale cells
behind the 4 bytes that `readlink` wrote. -/
theorem c3_stdout_follows_stale_cells :
    staleWorld.exe = some (bytes "/a/b") ∧
      parentDir (bytes "/a/b") = bytes "/a" ∧
      (main 4096 1 plainArgv staleWorld).stdout = some (bytes "/a/bc") := by
  decide

/-- C4 fails in the code: in the run of `staleWorld` the launcher is `/a/b`,
`readlink` and `chdir` both succeed, and the working directory at the spawn is
`/a/bc`, not the directory `/a` that contains the launcher. -/
theorem c4_spawn_directory_follows_stale_cells :
    staleWorld.exe = some (bytes "/a/b") ∧
      staleWorld.chdirOk (bytes "/a/bc") = true ∧
      parentDir (bytes "/a/b") = bytes "/a" ∧
      (main 4096 1 plainArgv staleWorld).spawnCwd = some (bytes "/a/bc") := by
  decide

/-- C5, as stated, fails: in the run of `lockedWorld` the launcher calls
`chdir` with `/tmp/app`, the call fails, and the exit status is 0. -/
theorem c5_failed_chdir_exits_zero :
    Event.chdir (.str (bytes "/tmp/app")) ∈ (main 4096 1 plainArgv lockedWorld).trace ∧
      lockedWorld.chdirOk (bytes "/tmp/app") = false ∧
      ¬ ((main 4096 1 plainArgv lockedWorld).exit ≠ 0) := by
  decide

/-- C5, amended: in every run in which the `chdir` to the derived directory
`d` fails, the launcher goes on: it calls `system` with the fixed command from
the working directory it was started in, and exits with status 0. -/
theorem c5_failed_chdir_is_ignored (PATH_MAX : Nat) (argc : Int) (argv : List Bytes)
    (w : World) (d : Bytes)
    (hcall : Event.chdir (.str d) ∈ (main PATH_MAX argc argv w).trace)
    (hfail : w.chdirOk d = false) :
    Event.system "./exogui --no-sandbox" ∈ (main PATH_MAX argc argv w).trace ∧
      (main PATH_MAX argc argv w).spawnCwd = some w.cwd ∧
      (main PATH_MAX argc argv w).exit = 0 := by
  by_cases hc : (readlink PATH_MAX w).1 = -1
  · rw [main_of_failure PATH_MAX argc argv w hc] at hcall
    cases hst : w.stalePath <;> simp [hst, completed, killedIn] at hcall
  · cases hs : cstr (readlink PATH_MAX w).2 with
    | none =>
      rw [main_of_overrun PATH_MAX argc argv w hc hs] at hcall
      cases hst : w.overrunPath <;> simp [hst, completed, killedIn] at hcall
    | some s =>
      rw [main_of_cstr PATH_MAX argc argv w s hc hs] at hcall ⊢
      have hd : d = dirname s := by simpa [completed] using hcall
      subst hd
      simp [completed, command, cwdAfter, Run.exit, hfail]

/-- Witness of C5, amended, in `lockedWorld`. -/
theorem c5_failed_chdir_is_ignored_witness :
    Event.system "./exogui --no-sandbox" ∈ (main 4096 1 plainArgv lockedWorld).trace ∧
      (main 4096 1 plainArgv lockedWorld).spawnCwd = some lockedWorld.cwd ∧
      (main 4096 1 plainArgv lockedWorld).exit = 0 :=
  c5_failed_chdir_is_ignored 4096 1 plainArgv lockedWorld (bytes "/tmp/app")
    (by decide) (by decide)

/-- C6, as stated, fails: in the run of `childlessWorld` there is no `exogui`
to start, `system` returns the status of a command that was not found, and
the exit status of the launcher is 0. -/
theorem c6_missing_child_exits_zero :
    (main 4096 1 plainArgv childlessWorld).childStatus = some (127 * 256) ∧
      ¬ ((main 4096 1 plainArgv childlessWorld).exit ≠ 0) := by
  decide

/-- C6, amended: in every run in which `system` returns a status `s` other
than 0 (the child was not found, could not be started, or failed), the
launcher discards that status and exits with status 0. -/
theorem c6_child_status_is_discarded (PATH_MAX : Nat) (argc : Int) (argv : List Bytes)
    (w : World) (s : Int) (h : (main PATH_MAX argc argv w).childStatus = some s)
    (hs : s ≠ 0) :
    (main PATH_MAX argc argv w).exit = 0 ∧ (main PATH_MAX argc argv w).exit ≠ s := by
  rcases main_shape PATH_MAX argc argv w with ⟨count, derive, path, d, hm⟩ | ⟨count, calls, hm⟩
  · rw [hm]
    exact ⟨rfl, fun e => hs e.symm⟩
  · rw [hm] at h
    simp [killedIn] at h

/-- Witness of C6, amended, in `childlessWorld`. -/
theorem c6_child_status_is_discarded_witness :
    (main 4096 1 plainArgv childlessWorld).childStatus = some 32512 ∧
      (main 4096 1 plainArgv childlessWorld).exit = 0 ∧
      (main 4096 1 plainArgv childlessWorld).exit ≠ 32512 :=
  ⟨by decide,
    c6_child_status_is_discarded 4096 1 plainArgv childlessWorld 32512 (by decide) (by decide)⟩

/-- C8, as stated, fails, in two ways.  In the run of `deadWorld` the process
is killed in `printf`: nothing is written, and no `chdir`, no spawn and no exit
follow.  In the run of `cleanWorld` every call is made, but the directory
waits in the stream while the child runs: the operating system sees the
`chdir` and the spawn first and the write to standard output after them. -/
theorem c8_order_as_stated_fails :
    (main 4096 1 plainArgv deadWorld).effects =
        [Effect.readlink "/proc/self/exe" 4096 (-1), Effect.killed SIGSEGV] ∧
      Event.system "./exogui --no-sandbox" ∉ (main 4096 1 plainArgv deadWorld).trace ∧
      (main 4096 1 plainArgv cleanWorld).effects =
        [Effect.readlink "/proc/self/exe" 4096 17,
          Effect.chdir (some (bytes "/tmp/app")) 0,
          Effect.spawn "./exogui --no-sandbox" (bytes "/tmp/app") 0,
          Effect.write (bytes "/tmp/app"),
          Effect.exit 0] := by
  decide

/-- C8, amended: in every execution in which `readlink` succeeds and the array
holds a terminator, the library calls are made in the order `readlink`,
`dirname`, `printf`, `chdir`, `system`, return, once each, `printf` and `chdir`
on the directory part of the string in the array and `system` on exactly the
command `./exogui --no-sandbox`; and the operating system sees, in this order,
the `readlink`, what the stream passes on of the directory at once, the
`chdir` to the directory, the spawn of the command in the directory that the
`chdir` left current, the rest of the directory, and the exit with status 0. -/
theorem c8_effects_in_linear_order (PATH_MAX : Nat) (argc : Int) (argv : List Bytes)
    (w : World) (s : Bytes) (hok : (readlink PATH_MAX w).1 ≠ -1)
    (hs : cstr (readlink PATH_MAX w).2 = some s) :
    (main PATH_MAX argc argv w).trace =
        [Event.readlink "/proc/self/exe" PATH_MAX (readlink PATH_MAX w).1,
          Event.dirname (some s),
          Event.printf "%s" (.str (dirname s)),
          Event.chdir (.str (dirname s)),
          Event.system "./exogui --no-sandbox",
          Event.exit 0] ∧
      (main PATH_MAX argc argv w).effects =
        [Effect.readlink "/proc/self/exe" PATH_MAX (readlink PATH_MAX w).1] ++
          Effect.writes ((dirname s).take (w.flushed (dirname s))) ++
          [Effect.chdir (some (dirname s)) (chdirRet w (dirname s)),
            Effect.spawn "./exogui --no-sandbox" (cwdAfter w w.cwd (dirname s))
              (w.systemRet (cwdAfter w w.cwd (dirname s)))] ++
          Effect.writes ((dirname s).drop (w.flushed (dirname s))) ++
          [Effect.exit 0] := by
  rw [main_of_cstr PATH_MAX argc argv w s hok hs]
  exact ⟨rfl, rfl⟩

/-- Witness of C8, amended, in `cleanWorld`. -/
theorem c8_effects_in_linear_order_witness :
    (readlink 4096 cleanWorld).1 ≠ -1 ∧
      cstr (readlink 4096 cleanWorld).2 = some (bytes "/tmp/app/launcher") ∧
      (main 4096 1 plainArgv cleanWorld).trace =
        [Event.readlink "/proc/self/exe" 4096 (readlink 4096 cleanWorld).1,
          Event.dirname (some (bytes "/tmp/app/launcher")),
          Event.printf "%s" (.str (dirname (bytes "/tmp/app/launcher"))),
          Event.chdir (.str (dirname (bytes "/tmp/app/launcher"))),
          Event.system "./exogui --no-sandbox",
          Event.exit 0] ∧
      (main 4096 1 plainArgv cleanWorld).effects =
        [Effect.readlink "/proc/self/exe" 4096 (readlink 4096 cleanWorld).1] ++
          Effect.writes ((dirname (bytes "/tmp/app/launcher")).take
            (cleanWorld.flushed (dirname (bytes "/tmp/app/launcher")))) ++
          [Effect.chdir (some (dirname (bytes "/tmp/app/launcher")))
              (chdirRet cleanWorld (dirname (bytes "/tmp/app/launcher"))),
            Effect.spawn "./exogui --no-sandbox"
              (cwdAfter cleanWorld cleanWorld.cwd (dirname (bytes "/tmp/app/launcher")))
              (cleanWorld.systemRet
                (cwdAfter cleanWorld cleanWorld.cwd (dirname (bytes "/tmp/app/launcher"))))] ++
          Effect.writes ((dirname (bytes "/tmp/app/launcher")).drop
            (cleanWorld.flushed (dirname (bytes "/tmp/app/launcher")))) ++
          [Effect.exit 0] :=
  ⟨by decide, by decide,
    c8_effects_in_linear_order 4096 1 plainArgv cleanWorld (bytes "/tmp/app/launcher")
      (by decide) (by decide)⟩

/-- C9: two runs that differ in `argc` and `argv` only are the same run: same
calls with the same operands, same output, same directory at the spawn, same
exit status. -/
theorem c9_arguments_are_not_consumed (PATH_MAX : Nat) (argc₁ argc₂ : Int)
    (argv₁ argv₂ : List Bytes) (w : World) :
    main PATH_MAX argc₁ argv₁ w = main PATH_MAX argc₂ argv₂ w :=
  rfl

/-- C10 fails in the code.  In the run of `staleWorld`, `readlink` returns 4
after writing `/a/b`, the cell at index 4 holds the stale byte `c` and not a
terminator, and the string handed to `dirname` is `/a/bc/d`, three bytes of
which `readlink` never wrote. -/
theorem c10_no_terminator_is_written :
    (readlink 4096 staleWorld).1 = 4 ∧
      (readlink 4096 staleWorld).2.take 4 = bytes "/a/b" ∧
      (readlink 4096 staleWorld).2.get? 4 = some 99 ∧
      Event.dirname (some (bytes "/a/bc/d")) ∈ (main 4096 1 plainArgv staleWorld).trace := by
  decide

end Launcher
